import Mathlib

/-!
Shallow embedding of the constructr document extraction/classification
pipeline (src/document_parser.py and src/ai_assistant.py).

Text is modelled as `List Char` (`Str`).  Python string operations used by
the source (`upper`, `lower`, `strip`, `split`, substring containment via
`in`, `str.replace`) are embedded as executable functions below, faithful
to their ASCII behaviour.  The regular expressions appearing in the source
rule tables use only literals, the classes `\d`, `\s`, `[A-Z]`, `[-\s]`,
`['"]`, `[MmFfTt]` and the quantifiers `?`, `+`, `*`; a small backtracking
matcher with exactly Python's leftmost/greedy first-result semantics for
this fragment is defined here, together with `re.search` and `re.findall`.
-/

namespace Constructr

abbrev Str := List Char

/-- Python `str.upper()` (ASCII range, which is all the source tables use). -/
def upper (s : Str) : Str := s.map Char.toUpper

/-- Python `str.lower()` (ASCII range). -/
def lowerStr (s : Str) : Str := s.map Char.toLower

/-- Python whitespace for `str.strip` / `str.split` / regex `\s`:
space, tab, newline, carriage return, form feed, vertical tab. -/
def isSpaceChar (c : Char) : Bool :=
  c == ' ' || c == '\t' || c == '\n' || c == '\r' || c == Char.ofNat 12 || c == Char.ofNat 11

/-- Python `str.strip()`. -/
def strip (s : Str) : Str :=
  ((s.dropWhile isSpaceChar).reverse.dropWhile isSpaceChar).reverse

def splitWsGo : Str → Str → List Str
  | [], cur => if cur = [] then [] else [cur.reverse]
  | c :: s, cur =>
      if isSpaceChar c then
        if cur = [] then splitWsGo s [] else cur.reverse :: splitWsGo s []
      else splitWsGo s (c :: cur)

/-- Python `str.split()` with no argument: split on whitespace runs,
discarding empty pieces. -/
def splitWs (s : Str) : List Str := splitWsGo s []

/-- Python substring containment `needle in hay`. -/
def infixOf (needle hay : Str) : Bool :=
  match hay with
  | [] => needle.isEmpty
  | _ :: t => needle.isPrefixOf hay || infixOf needle t

/-- Recursion for `replaceAll`, structural on an explicit fuel so that the
kernel can evaluate it; every recursive call shortens the haystack, so
`hay.length + 1` fuel always suffices. -/
def replaceFuel (needle repl : Str) : Nat → Str → Str
  | 0, s => s
  | _ + 1, [] => []
  | fuel + 1, c :: t =>
      match needle with
      | [] => c :: t
      | n :: ns =>
          if (n :: ns).isPrefixOf (c :: t) then
            repl ++ replaceFuel needle repl fuel (t.drop ns.length)
          else
            c :: replaceFuel needle repl fuel t

/-- Python `hay.replace(needle, repl)`: all non-overlapping occurrences,
left to right.  (All needles used by the source are nonempty.) -/
def replaceAll (needle repl hay : Str) : Str :=
  replaceFuel needle repl (hay.length + 1) hay

def countFuel (needle : Str) : Nat → Str → Nat
  | 0, _ => 0
  | _ + 1, [] => 0
  | fuel + 1, c :: t =>
      match needle with
      | [] => 0
      | n :: ns =>
          if (n :: ns).isPrefixOf (c :: t) then
            countFuel needle fuel (t.drop ns.length) + 1
          else
            countFuel needle fuel t

/-- Number of non-overlapping occurrences of a (nonempty) needle,
scanning left to right as Python `str.count` does. -/
def countOccur (needle hay : Str) : Nat :=
  countFuel needle (hay.length + 1) hay

/-! ### Regex fragment -/

/-- One atom of the regex fragment used by the source's rule tables. -/
inductive RItem
  | ch (c : Char)   -- a literal character
  | digit           -- \d
  | space           -- \s
  | upperA          -- [A-Z]
  | dashSpace       -- [-\s]
  | quote           -- the class of single and double quote
  | mft             -- [MmFfTt]
deriving DecidableEq

inductive Quant
  | one | opt | star | plus
deriving DecidableEq

abbrev Pat := List (RItem × Quant)

/-- Does atom `it` match character `c`?  `ci` is `re.IGNORECASE`. -/
def itemMatch (ci : Bool) : RItem → Char → Bool
  | .ch a, c => if ci then a.toLower == c.toLower else a == c
  | .digit, c => c.isDigit
  | .space, c => isSpaceChar c
  | .upperA, c => ('A' ≤ c && c ≤ 'Z') || (ci && ('a' ≤ c && c ≤ 'z'))
  | .dashSpace, c => c == '-' || isSpaceChar c
  | .quote, c => c == Char.ofNat 39 || c == '"'
  | .mft, c => c == 'M' || c == 'm' || c == 'F' || c == 'f' || c == 'T' || c == 't'

/-- Recursion for `matchG`, structural on an explicit fuel so that the
kernel can evaluate it; every recursive call strictly decreases
`p.length + s.length`, so `p.length + s.length + 1` fuel always suffices. -/
def matchFuel (ci : Bool) : Nat → Pat → Str → Option Nat
  | 0, _, _ => none
  | _ + 1, [], _ => some 0
  | _ + 1, (_, .one) :: _, [] => none
  | fuel + 1, (it, .one) :: rest, c :: s =>
      if itemMatch ci it c then (matchFuel ci fuel rest s).map (· + 1) else none
  | fuel + 1, (_, .opt) :: rest, [] => matchFuel ci fuel rest []
  | fuel + 1, (it, .opt) :: rest, c :: s =>
      if itemMatch ci it c then
        match matchFuel ci fuel rest s with
        | some n => some (n + 1)
        | none => matchFuel ci fuel rest (c :: s)
      else matchFuel ci fuel rest (c :: s)
  | fuel + 1, (_, .star) :: rest, [] => matchFuel ci fuel rest []
  | fuel + 1, (it, .star) :: rest, c :: s =>
      if itemMatch ci it c then
        match matchFuel ci fuel ((it, .star) :: rest) s with
        | some n => some (n + 1)
        | none => matchFuel ci fuel rest (c :: s)
      else matchFuel ci fuel rest (c :: s)
  | _ + 1, (_, .plus) :: _, [] => none
  | fuel + 1, (it, .plus) :: rest, c :: s =>
      if itemMatch ci it c then
        match matchFuel ci fuel ((it, .star) :: rest) s with
        | some n => some (n + 1)
        | none => none
      else none

/-- Backtracking match of a pattern against a prefix of `s`, returning the
number of characters consumed by the first match found in Python's
greedy/backtracking order, or `none`. -/
def matchG (ci : Bool) (p : Pat) (s : Str) : Option Nat :=
  matchFuel ci (p.length + s.length + 1) p s

/-- Python `re.search(p, s) is not None`. -/
def research (ci : Bool) (p : Pat) (s : Str) : Bool :=
  (List.range (s.length + 1)).any (fun i => (matchG ci p (s.drop i)).isSome)

def findallFuel (ci : Bool) (p : Pat) : Nat → Str → List Str
  | 0, _ => []
  | _ + 1, [] => []
  | fuel + 1, c :: t =>
      match matchG ci p (c :: t) with
      | some (n + 1) => ((c :: t).take (n + 1)) :: findallFuel ci p fuel (t.drop n)
      | _ => findallFuel ci p fuel t

/-- Python `re.findall(p, s)`: leftmost non-overlapping matches.
(Every pattern in the source's tables matches at least one character,
so the empty-match corner of `re.findall` never arises.) -/
def findall (ci : Bool) (p : Pat) (s : Str) : List Str :=
  findallFuel ci p (s.length + 1) s

/-- A string used as a regex consisting only of literal characters. -/
def lits (s : String) : Pat := s.data.map (fun c => (RItem.ch c, Quant.one))

/-! ### Document type classifier (`ConstructionDocumentParser.identify_document_type`) -/

structure Rules where
  keywords : List Str
  patterns : List Pat
deriving DecidableEq

/-- The `self.document_types` rule table, in definition (= dict insertion)
order.  Patterns are the source's regexes compiled into `Pat`. -/
def document_types : List (Str × Rules) :=
  [ (("RFI").data,
     { keywords := [("rfi").data, ("request for information").data, ("clarification").data]
       patterns := [lits ("RFI") ++ [(RItem.dashSpace, Quant.opt), (RItem.digit, Quant.plus)],
                    lits ("REQUEST FOR INFORMATION")] }),
    (("SUBMITTAL").data,
     { keywords := [("submittal").data, ("shop drawing").data, ("product data").data, ("samples").data]
       patterns := [lits ("SUBMITTAL"), lits ("SHOP DRAWING"), lits ("PRODUCT DATA")] }),
    (("SPECIFICATION").data,
     { keywords := [("specification").data, ("section").data, ("csi").data, ("division").data]
       patterns := [lits ("SECTION ") ++ [(RItem.digit, Quant.plus)],
                    lits ("CSI ") ++ [(RItem.digit, Quant.plus)],
                    lits ("DIVISION ") ++ [(RItem.digit, Quant.plus)]] }),
    (("CONTRACT").data,
     { keywords := [("contract").data, ("agreement").data, ("general conditions").data]
       patterns := [lits ("CONTRACT"), lits ("AGREEMENT"), lits ("GENERAL CONDITIONS")] }),
    (("CHANGE_ORDER").data,
     { keywords := [("change order").data, ("co").data, ("pco").data, ("change directive").data]
       patterns := [lits ("CO") ++ [(RItem.dashSpace, Quant.opt), (RItem.digit, Quant.plus)],
                    lits ("CHANGE ORDER"), lits ("PCO")] }),
    (("DRAWING").data,
     { keywords := [("drawing").data, ("plan").data, ("elevation").data, ("section").data, ("detail").data]
       patterns := [[(RItem.upperA, Quant.one), (RItem.ch '-', Quant.one), (RItem.digit, Quant.plus)],
                    lits ("DRAWING"), lits ("PLAN"), lits ("ELEVATION")] }),
    (("SCHEDULE").data,
     { keywords := [("schedule").data, ("timeline").data, ("milestone").data, ("gantt").data]
       patterns := [lits ("SCHEDULE"), lits ("TIMELINE"), lits ("MILESTONE")] }),
    (("INVOICE").data,
     { keywords := [("invoice").data, ("payment").data, ("billing").data, ("pay application").data]
       patterns := [lits ("INVOICE"), lits ("PAYMENT"), lits ("PAY APP")] }) ]

/-- The per-type score accumulated by `identify_document_type`:
+2 per keyword (upper-cased) found in the upper-cased text, +3 per pattern
with an `re.search` hit in the upper-cased text, +1 per keyword found in
the upper-cased filename. -/
def typeScore (rules : Rules) (tU fU : Str) : Nat :=
  2 * rules.keywords.countP (fun k => infixOf (upper k) tU)
    + 3 * rules.patterns.countP (fun p => research false p tU)
    + rules.keywords.countP (fun k => infixOf (upper k) fU)

def pyMaxStep (b y : Str × Nat) : Str × Nat := if y.2 > b.2 then y else b

/-- Python `max(scores.items(), key=lambda x: x[1])`: the first maximal
element of a nonempty association list. -/
def pyMax : List (Str × Nat) → Option (Str × Nat)
  | [] => none
  | x :: xs => some (xs.foldl pyMaxStep x)

/-- `ConstructionDocumentParser.identify_document_type(text, filename)`. -/
def identify_document_type (text filename : Str) : Str :=
  let tU := upper text
  let fU := upper filename
  let scores := document_types.map (fun r => (r.1, typeScore r.2 tU fU))
  match pyMax scores with
  | some best => if best.2 > 0 then best.1 else ("UNKNOWN").data
  | none => ("UNKNOWN").data

/-- Modelled from the spec's words (section 4.3), for the refinement claim
C2: compute every type's score, take the maximum score; if the maximum is
0 return `unknown`, otherwise the first-defined type attaining it. -/
def maxSnd (l : List (Str × Nat)) : Nat := l.foldr (fun p m => Nat.max p.2 m) 0

def specClassify (text filename : Str) : Str :=
  let scores := document_types.map (fun r => (r.1, typeScore r.2 (upper text) (upper filename)))
  let m := maxSnd scores
  if m = 0 then ("UNKNOWN").data
  else
    match scores.find? (fun p => p.2 == m) with
    | some p => p.1
    | none => ("UNKNOWN").data

/-! ### Record builder (`parse_document`, `parse_directory`)

`parse_document` performs file-system and library I/O.  The embedding makes
the ambient world an explicit `Env` value per file: the path's existence,
basename and suffix, and the outcome of each extraction library call
(`Except` when the underlying call can raise, a plain string for
`extract_text_from_pdf`, which the source makes total by catching every
library error internally). -/

structure ParsedRecord where
  filename : Str
  file_path : Str
  document_type : Str
  text_content : Str
  word_count : Nat
  char_count : Nat
deriving DecidableEq

/-- The dictionary returned by `parse_document`: either `{"error": msg}` or
the full record. -/
inductive ParseResult
  | fail (msg : Str)
  | ok (rec : ParsedRecord)
deriving DecidableEq

deriving instance DecidableEq for Except

structure Env where
  file_exists : Bool
  is_file : Bool
  name : Str            -- `file_path.name`
  path : Str            -- `str(file_path)`
  suffix : Str          -- `file_path.suffix` (the source lower-cases it)
  pdf_text : Str                    -- result of `extract_text_from_pdf` (total)
  docx_lib : Except Str Str         -- python-docx extraction: raises or text
  excel_lib : Except Str Str        -- openpyxl extraction: raises or text
  txt_read : Except Str Str         -- `open(...).read()`: raises or text
deriving DecidableEq

/-- `extract_text_from_docx`: the library failure is caught and turned into
the empty string (source lines 398-416). -/
def extract_text_from_docx (env : Env) : Str :=
  match env.docx_lib with
  | .ok t => t
  | .error _ => []

/-- `extract_text_from_excel`: the library failure is caught and turned
into the empty string (source lines 418-437). -/
def extract_text_from_excel (env : Env) : Str :=
  match env.excel_lib with
  | .ok t => t
  | .error _ => []

/-- `ConstructionDocumentParser.parse_document` (source lines 439-476). -/
def parse_document (env : Env) : ParseResult :=
  if env.file_exists = false then ParseResult.fail (("File not found").data)
  else
    let ext := lowerStr env.suffix
    let textR : Except Str Str :=
      if ext = (".pdf").data then Except.ok env.pdf_text
      else if ext = (".docx").data then Except.ok (extract_text_from_docx env)
      else if ext = (".xlsx").data ∨ ext = (".xls").data then Except.ok (extract_text_from_excel env)
      else if ext = (".txt").data then
        match env.txt_read with
        | .ok t => Except.ok t
        | .error e => Except.error ((("Could not read text file: ").data) ++ e)
      else Except.error ((("Unsupported file type: ").data) ++ ext)
    match textR with
    | .error m => ParseResult.fail m
    | .ok text =>
        ParseResult.ok
          { filename := env.name
            file_path := env.path
            document_type := identify_document_type text env.name
            text_content := text
            word_count := (splitWs text).length
            char_count := text.length }

/-- The batch filter's accepted extensions (note `.doc` appears here even
though `parse_document` has no `.doc` branch). -/
def supported_extensions : List Str :=
  [(".pdf").data, (".docx").data, (".doc").data, (".xlsx").data, (".xls").data, (".txt").data]

/-- `ConstructionDocumentParser.parse_directory` (source lines 478-491):
the `rglob` result is the explicit list `entries`, in traversal order. -/
def parse_directory (entries : List Env) : List ParseResult :=
  (entries.filter
      (fun e => e.is_file && decide (lowerStr e.suffix ∈ supported_extensions))).map
    parse_document

/-- Accessors used to state claims about `parse_document` results. -/
def resultError : ParseResult → Option Str
  | .fail m => some m
  | .ok _ => none

def resultDocType : ParseResult → Option Str
  | .fail _ => none
  | .ok r => some r.document_type

def isErrorB : ParseResult → Bool
  | .fail _ => true
  | .ok _ => false

/-- Does the record exist and carry nonempty `text_content`? -/
def hasTextB : ParseResult → Bool
  | .fail _ => false
  | .ok r => !r.text_content.isEmpty

/-! ### OCR subsystem: construction patterns and pass merging -/

/-- The `self.construction_keywords` table, keyed by category, in dict
insertion order.  Plain keyword strings are used by the source as literal
regexes (they go through `re.findall` unescaped), so they are `lits` here. -/
def construction_keywords : List (Str × List Pat) :=
  [ (("drawing_numbers").data,
     [[(RItem.upperA, Quant.one), (RItem.ch '-', Quant.one), (RItem.digit, Quant.plus)],
      [(RItem.upperA, Quant.one), (RItem.digit, Quant.plus)],
      lits ("SHEET") ++ [(RItem.space, Quant.plus), (RItem.digit, Quant.plus)],
      lits ("DWG") ++ [(RItem.space, Quant.plus), (RItem.digit, Quant.plus)]]),
    (("dimensions").data,
     [[(RItem.digit, Quant.plus), (RItem.quote, Quant.opt), (RItem.space, Quant.star),
       (RItem.ch '-', Quant.opt), (RItem.space, Quant.star), (RItem.digit, Quant.plus),
       (RItem.quote, Quant.opt)],
      [(RItem.digit, Quant.plus), (RItem.ch '.', Quant.one), (RItem.digit, Quant.plus),
       (RItem.space, Quant.star), (RItem.mft, Quant.one)],
      lits ("SCALE") ++ [(RItem.space, Quant.star), (RItem.ch ':', Quant.opt),
                         (RItem.space, Quant.star), (RItem.digit, Quant.plus)]]),
    (("title_block").data,
     [lits ("PROJECT"), lits ("DRAWING"), lits ("SHEET"), lits ("REVISION"),
      lits ("DATE"), lits ("SCALE"), lits ("DWG NO")]),
    (("annotations").data,
     [lits ("SEE"), lits ("REF"), lits ("DETAIL"), lits ("NOTE"), lits ("CALL"),
      lits ("CALL OUT")]),
    (("room_labels").data,
     [lits ("ROOM"), lits ("OFFICE"), lits ("BATH"), lits ("KITCHEN"), lits ("STORAGE"),
      lits ("CORRIDOR")]),
    (("materials").data,
     [lits ("CONCRETE"), lits ("STEEL"), lits ("GYPSUM"), lits ("BRICK"), lits ("MASONRY"),
      lits ("WOOD"), lits ("METAL")]),
    (("grid_labels").data,
     [[(RItem.upperA, Quant.one), (RItem.digit, Quant.plus)],
      lits ("GRID") ++ [(RItem.space, Quant.plus), (RItem.upperA, Quant.one)],
      lits ("COLUMN") ++ [(RItem.space, Quant.plus), (RItem.upperA, Quant.one)]])]

/-- First-occurrence deduplication; fixes the (unspecified) iteration order
of a Python `set` as first-occurrence order, which is all the claims about
counts of distinct elements depend on. -/
def dedupFirstGo (seen : List Str) : List Str → List Str
  | [] => []
  | x :: xs =>
      if seen.contains x then dedupFirstGo seen xs
      else x :: dedupFirstGo (x :: seen) xs

def dedupFirst (l : List Str) : List Str := dedupFirstGo [] l

def joinSep (sep : Str) : List Str → Str
  | [] => []
  | [x] => x
  | x :: xs => x ++ sep ++ joinSep sep xs

/-- The line the source appends for one `(category, pattern)` pair with a
nonempty `re.findall` result: `f"{category.upper()}: {', '.join(set(matches[:10]))}"`. -/
def lineFor (cat : Str) (ms : List Str) : Str :=
  upper cat ++ ((": ").data) ++ joinSep ((", ").data) (dedupFirst (ms.take 10))

/-- The `patterns_found` list built by `_extract_construction_patterns`
(source lines 271-281): one line per `(category, pattern)` pair whose
`re.findall` (with `re.IGNORECASE`) result is nonempty, in table order. -/
def patternsFound (text : Str) : List Str :=
  construction_keywords.flatMap
    (fun cp =>
      cp.2.filterMap
        (fun pat =>
          let ms := findall true pat text
          if ms ≠ [] then some (lineFor cp.1 ms) else none))

/-- `_extract_construction_patterns` (returns `""` when nothing matched). -/
def extract_construction_patterns (text : Str) : Str :=
  joinSep (("\n").data) (patternsFound text)

/-- The word-overlap similarity test of `_extract_text_with_ocr`
(source line 246-247): `len(set(tl.split()) & set(seen.split())) /
max(len(tl.split()), 1) > 0.8`, modelled exactly over the rationals as
`5 * intersection > 4 * max(tokenCount, 1)` (the float comparison agrees
with the exact rational one at every realistic word count). -/
def wordSet (s : Str) : List Str := dedupFirst (splitWs s)

def similarB (tl seen : Str) : Bool :=
  let inter := (wordSet tl).countP (fun w => (wordSet seen).contains w)
  5 * inter > 4 * Nat.max (splitWs tl).length 1

/-- The accepted-pass merge loop of `_extract_text_with_ocr` (source lines
238-253): `seen` is the `seen_texts` set (modelled as a list; only
membership-style existential queries are made of it), `acc` the
`combined_text` accumulator. -/
def dedupLoopGo : List Str → Str → List (Str × Str) → Str
  | _, acc, [] => acc
  | seen, acc, (mode, text) :: rest =>
      let tl := lowerStr text
      if seen.any (fun s => similarB tl s) then dedupLoopGo seen acc rest
      else
        dedupLoopGo (seen ++ [tl])
          (acc ++ (("[").data) ++ mode ++ (("]\n").data) ++ text ++ (("\n\n").data)) rest

/-- The result-combination part of `_extract_text_with_ocr` (source lines
231-260), taking the already-computed title-block text and the accepted
`ocr_results` pass outputs as inputs. -/
def combineOcr (title_block_text : Str) (ocr_results : List (Str × Str)) : Str :=
  let initAcc : Str :=
    if title_block_text ≠ [] then
      (("[TITLE BLOCK]\n").data) ++ title_block_text ++ (("\n\n").data)
    else []
  let combined := dedupLoopGo [] initAcc ocr_results
  let pats := extract_construction_patterns combined
  let combined2 :=
    if pats ≠ [] then combined ++ (("[CONSTRUCTION PATTERNS]\n").data) ++ pats ++ (("\n").data)
    else combined
  if strip combined2 ≠ [] then strip combined2 else ("[No text extracted]").data

/-! ### PDF extractor (`extract_text_from_pdf`, pymupdf branch)

The spec's pipeline is the pymupdf branch (source lines 303-352); the
embedding takes the native per-page texts, the tesseract availability
flag, the page-to-image success oracle and the per-page OCR output
(`_extract_text_with_ocr`) as inputs. -/

def ocr_threshold : Nat := 50

def pageHeaderN (n : Nat) : Str :=
  (("\n--- Page ").data) ++ (Nat.repr n).data ++ ((" ---\n").data)

def noTextPlaceholder (n : Nat) : Str :=
  (("--- Page ").data) ++ (Nat.repr n).data
    ++ ((" ---\n[No text found - attempting OCR...]\n").data)

def attemptPlaceholder (n : Nat) : Str :=
  (("--- Page ").data) ++ (Nat.repr n).data
    ++ ((" ---\n[Attempting OCR for additional content...]\n").data)

def ocrReplacement (n : Nat) (ocr_text : Str) : Str :=
  (("--- Page ").data) ++ (Nat.repr n).data ++ ((" (OCR) ---\n").data) ++ ocr_text
    ++ (("\n").data)

/-- First pass of the pymupdf branch: build the text with page delimiters
and placeholders, and collect the page numbers needing OCR. -/
def firstPassGo : List (Nat × Str) → Str × List Nat
  | [] => ([], [])
  | (n, pt) :: rest =>
      let s := strip pt
      let here : Str × List Nat :=
        if s ≠ [] ∧ s.length ≥ ocr_threshold then
          (pageHeaderN n ++ pt ++ (("\n").data), [])
        else if s ≠ [] then
          (pageHeaderN n ++ pt ++ (("\n").data)
             ++ (("[Attempting OCR for additional content...]\n").data), [n])
        else
          (pageHeaderN n ++ (("[No text found - attempting OCR...]\n").data), [n])
      let (t, ns) := firstPassGo rest
      (here.1 ++ t, here.2 ++ ns)

/-- Second pass: OCR each collected page and substitute its placeholder. -/
def secondPass (hasTesseract : Bool) (toImage : Nat → Bool) (ocr : Nat → Str)
    (needing : List Nat) (text : Str) : Str :=
  if needing ≠ [] ∧ hasTesseract then
    needing.foldl
      (fun t n =>
        if toImage n then
          let o := ocr n
          if o ≠ [] ∧ o ≠ ("[OCR not available - Tesseract not installed]").data then
            replaceAll (attemptPlaceholder n) (ocrReplacement n o)
              (replaceAll (noTextPlaceholder n) (ocrReplacement n o) t)
          else t
        else t)
      text
  else text

/-- `extract_text_from_pdf` (pymupdf branch, source lines 303-352). -/
def extract_text_from_pdf (pages : List Str) (hasTesseract : Bool)
    (toImage : Nat → Bool) (ocr : Nat → Str) : Str :=
  let fp := firstPassGo (pages.enumFrom 1)
  let text2 := secondPass hasTesseract toImage ocr fp.2 fp.1
  if strip text2 ≠ [] then text2 else ("No text found in PDF").data

/-! ### LLM classifier variant (`ConstructionAI.detect_document_type`,
src/ai_assistant.py lines 117-218).  The chat-completion round trip is an
oracle input: `Except` of the raised exception or of
`response.choices[0].message.content`. -/

def valid_types : List Str :=
  [("contract").data, ("specification").data, ("rfi").data, ("submittal").data,
   ("drawing").data, ("change_order").data, ("addendum").data, ("shop_drawing").data,
   ("as_built").data, ("unknown").data]

def detect_document_type (filename text_content : Str) (llm : Except Str Str) : Str :=
  let fl := lowerStr filename
  if infixOf (("contract").data) fl || infixOf (("agreement").data) fl then ("contract").data
  else if infixOf (("spec").data) fl || infixOf (("specification").data) fl then
    ("specification").data
  else if infixOf (("rfi").data) fl || infixOf (("request for information").data) fl then
    ("rfi").data
  else if infixOf (("submittal").data) fl then ("submittal").data
  else if infixOf (("drawing").data) fl || infixOf (("dwg").data) fl
      || infixOf (("plan").data) fl then ("drawing").data
  else if infixOf (("change order").data) fl || infixOf (("co").data) fl then
    ("change_order").data
  else if infixOf (("addendum").data) fl then ("addendum").data
  else if infixOf (("shop drawing").data) fl then ("shop_drawing").data
  else if infixOf (("as-built").data) fl || infixOf (("as built").data) fl then
    ("as_built").data
  else if text_content = [] ∨ (strip text_content).length < 50 then ("unknown").data
  else
    match llm with
    | .error _ => ("unknown").data
    | .ok content =>
        -- `.strip().lower()`, then `' '` replaced by `'_'` (the source only
        -- replaces when a space is present, which is the same function).
        let detected := (lowerStr (strip content)).map (fun c => if c == ' ' then '_' else c)
        if valid_types.contains detected then detected
        else
          match valid_types.find? (fun v => infixOf v detected || infixOf detected v) with
          | some v => v
          | none => ("unknown").data

/-- All thirteen filename-substring checks of `detect_document_type` fail:
the source then falls through to content length / LLM classification. -/
def filenameInconclusive (filename : Str) : Bool :=
  let fl := lowerStr filename
  !(infixOf (("contract").data) fl || infixOf (("agreement").data) fl
    || infixOf (("spec").data) fl || infixOf (("specification").data) fl
    || infixOf (("rfi").data) fl || infixOf (("request for information").data) fl
    || infixOf (("submittal").data) fl
    || infixOf (("drawing").data) fl || infixOf (("dwg").data) fl
    || infixOf (("plan").data) fl
    || infixOf (("change order").data) fl || infixOf (("co").data) fl
    || infixOf (("addendum").data) fl
    || infixOf (("shop drawing").data) fl
    || infixOf (("as-built").data) fl || infixOf (("as built").data) fl)

/-! ## Theorems -/

set_option maxRecDepth 10000

/-- The closed set of classifier outputs: the rule-table type names plus
`UNKNOWN`. -/
def closedTypes : List Str :=
  [("RFI").data, ("SUBMITTAL").data, ("SPECIFICATION").data, ("CONTRACT").data,
   ("CHANGE_ORDER").data, ("DRAWING").data, ("SCHEDULE").data, ("INVOICE").data,
   ("UNKNOWN").data]

theorem foldl_pyMax (xs : List (Str × Nat)) : ∀ b : Str × Nat,
    ((xs.foldl pyMaxStep b).2 = Nat.max b.2 (maxSnd xs)) ∧
    (if maxSnd xs ≤ b.2 then xs.foldl pyMaxStep b = b
     else xs.find? (fun p => p.2 == maxSnd xs) = some (xs.foldl pyMaxStep b)) := by
  induction xs with
  | nil =>
      intro b
      refine ⟨by simp [maxSnd], ?_⟩
      simp [maxSnd]
  | cons y ys ih =>
      intro b
      have hM : maxSnd (y :: ys) = Nat.max y.2 (maxSnd ys) := rfl
      have hfold : (y :: ys).foldl pyMaxStep b = ys.foldl pyMaxStep (pyMaxStep b y) := rfl
      obtain ⟨ih1, ih2⟩ := ih (pyMaxStep b y)
      by_cases hyb : y.2 > b.2
      · have hstep : pyMaxStep b y = y := by simp [pyMaxStep, hyb]
        rw [hstep] at ih1 ih2
        refine ⟨?_, ?_⟩
        · rw [hfold, hstep, ih1, hM]
          exact (Nat.max_eq_right (Nat.le_trans (Nat.le_of_lt hyb) (Nat.le_max_left _ _))).symm
        · rw [hfold, hstep]
          have hnotle : ¬ maxSnd (y :: ys) ≤ b.2 := by
            rw [hM]
            exact fun hh =>
              absurd (Nat.le_trans (Nat.le_max_left _ _) hh) (Nat.not_le_of_lt hyb)
          rw [if_neg hnotle]
          by_cases hys : maxSnd ys ≤ y.2
          · have hmx : maxSnd (y :: ys) = y.2 := by rw [hM]; exact Nat.max_eq_left hys
            rw [if_pos hys] at ih2
            rw [ih2, hmx]
            simp [List.find?]
          · have hlt : y.2 < maxSnd ys := Nat.lt_of_not_le hys
            have hmx : maxSnd (y :: ys) = maxSnd ys := by
              rw [hM]; exact Nat.max_eq_right (Nat.le_of_lt hlt)
            rw [if_neg hys] at ih2
            rw [hmx]
            have hhead : (y.2 == maxSnd ys) = false :=
              beq_eq_false_iff_ne.mpr (Nat.ne_of_lt hlt)
            simp only [List.find?, hhead]
            exact ih2
      · have hyble : y.2 ≤ b.2 := Nat.le_of_not_lt hyb
        have hstep : pyMaxStep b y = b := by simp [pyMaxStep, hyb]
        rw [hstep] at ih1 ih2
        refine ⟨?_, ?_⟩
        · rw [hfold, hstep, ih1, hM]
          apply Nat.le_antisymm
          · exact Nat.max_le.mpr
              ⟨Nat.le_max_left _ _,
               Nat.le_trans (Nat.le_max_right y.2 _) (Nat.le_max_right _ _)⟩
          · refine Nat.max_le.mpr ⟨Nat.le_max_left _ _, Nat.max_le.mpr ⟨?_, Nat.le_max_right _ _⟩⟩
            exact Nat.le_trans hyble (Nat.le_max_left _ _)
        · rw [hfold, hstep]
          by_cases hall : maxSnd (y :: ys) ≤ b.2
          · rw [if_pos hall]
            rw [hM] at hall
            have hys : maxSnd ys ≤ b.2 := Nat.le_trans (Nat.le_max_right _ _) hall
            rw [if_pos hys] at ih2
            exact ih2
          · rw [if_neg hall]
            have hysgt : b.2 < maxSnd ys := by
              rcases Nat.lt_or_ge b.2 (maxSnd ys) with h | h
              · exact h
              · exact absurd (by rw [hM]; exact Nat.max_le.mpr ⟨hyble, h⟩) hall
            have hmx : maxSnd (y :: ys) = maxSnd ys := by
              rw [hM]; exact Nat.max_eq_right (Nat.le_trans hyble (Nat.le_of_lt hysgt))
            have hys : ¬ maxSnd ys ≤ b.2 := Nat.not_le_of_lt hysgt
            rw [if_neg hys] at ih2
            rw [hmx]
            have hhead : (y.2 == maxSnd ys) = false :=
              beq_eq_false_iff_ne.mpr (Nat.ne_of_lt (Nat.lt_of_le_of_lt hyble hysgt))
            simp only [List.find?, hhead]
            exact ih2

theorem pyMax_eq_find (x : Str × Nat) (xs : List (Str × Nat)) :
    pyMax (x :: xs) = (x :: xs).find? (fun p => p.2 == maxSnd (x :: xs)) := by
  obtain ⟨h1, h2⟩ := foldl_pyMax xs x
  have hM : maxSnd (x :: xs) = Nat.max x.2 (maxSnd xs) := rfl
  by_cases hxs : maxSnd xs ≤ x.2
  · rw [if_pos hxs] at h2
    have hmx : maxSnd (x :: xs) = x.2 := by rw [hM]; exact Nat.max_eq_left hxs
    rw [hmx]
    simp [pyMax, h2, List.find?]
  · have hlt : x.2 < maxSnd xs := Nat.lt_of_not_le hxs
    rw [if_neg hxs] at h2
    have hmx : maxSnd (x :: xs) = maxSnd xs := by
      rw [hM]; exact Nat.max_eq_right (Nat.le_of_lt hlt)
    rw [hmx]
    have hhead : (x.2 == maxSnd xs) = false := beq_eq_false_iff_ne.mpr (Nat.ne_of_lt hlt)
    simp only [pyMax, List.find?, hhead]
    exact h2.symm

theorem foldl_pyMaxStep_mem (xs : List (Str × Nat)) :
    ∀ b : Str × Nat, xs.foldl pyMaxStep b ∈ b :: xs := by
  induction xs with
  | nil => intro b; simp
  | cons y ys ih =>
      intro b
      have h := ih (pyMaxStep b y)
      have hfold : (y :: ys).foldl pyMaxStep b = ys.foldl pyMaxStep (pyMaxStep b y) := rfl
      rw [hfold]
      rcases List.mem_cons.mp h with h1 | h1
      · rw [h1]
        by_cases hy : y.2 > b.2 <;> simp [pyMaxStep, hy]
      · exact List.mem_cons_of_mem _ (List.mem_cons_of_mem _ h1)

/-- **C1.** `identify_document_type` always returns a member of the closed
nine-element type set, and every non-error `parse_document` record has its
`document_type` in that set. -/
theorem c1_closed_type_set :
    (∀ text filename : Str, identify_document_type text filename ∈ closedTypes) ∧
    (∀ (env : Env) (r : ParsedRecord),
        parse_document env = ParseResult.ok r → r.document_type ∈ closedTypes) := by
  have htable : ∀ r ∈ document_types, r.1 ∈ closedTypes := by decide
  have hid : ∀ text filename : Str, identify_document_type text filename ∈ closedTypes := by
    intro t f
    simp only [identify_document_type]
    cases hpm : pyMax (document_types.map (fun r => (r.1, typeScore r.2 (upper t) (upper f)))) with
    | none => simp [closedTypes]
    | some best =>
        by_cases hpos : best.2 > 0
        · simp only [hpos, if_pos]
          have hmem : best ∈ document_types.map
              (fun r => (r.1, typeScore r.2 (upper t) (upper f))) := by
            cases hsc : document_types.map (fun r => (r.1, typeScore r.2 (upper t) (upper f))) with
            | nil => rw [hsc] at hpm; simp [pyMax] at hpm
            | cons s0 rest =>
                rw [hsc] at hpm
                simp only [pyMax, Option.some.injEq] at hpm
                rw [← hpm] at *
                rw [← hsc]
                rw [hsc]
                exact foldl_pyMaxStep_mem rest s0
          obtain ⟨r, hr, hbr⟩ := List.mem_map.mp hmem
          have : best.1 = r.1 := by rw [← hbr]
          rw [this]
          exact htable r hr
        · simp only [hpos, if_neg, ite_false]
          simp [closedTypes]
  refine ⟨hid, ?_⟩
  intro env r h
  simp only [parse_document] at h
  split at h
  · exact ParseResult.noConfusion h
  · split at h
    · exact ParseResult.noConfusion h
    · have := (ParseResult.ok.injEq _ _).mp h
      rw [← this]
      exact hid _ _

theorem maxSnd_eq_zero (l : List (Str × Nat)) (h : ∀ p ∈ l, p.2 = 0) : maxSnd l = 0 := by
  induction l with
  | nil => rfl
  | cons x xs ih =>
      have hx : x.2 = 0 := h x (List.mem_cons_self _ _)
      have hxs : maxSnd xs = 0 := ih (fun p hp => h p (List.mem_cons_of_mem _ hp))
      show Nat.max x.2 (maxSnd xs) = 0
      rw [hx, hxs]
      rfl

/-- **C2.** `identify_document_type` computes exactly the spec's scoring
(+2 per keyword in text, +3 per pattern hit, +1 per keyword in filename,
see `typeScore`), picks the type with the maximum score with ties resolved
in favour of the first-defined type, and returns `UNKNOWN` exactly when the
maximum score is 0: it coincides with the spec-side `specClassify`; in
particular any input with zero matches across all types yields `UNKNOWN`. -/
theorem c2_classifier_refines_spec :
    (∀ text filename : Str,
      identify_document_type text filename = specClassify text filename) ∧
    (∀ text filename : Str,
      (∀ r ∈ document_types, typeScore r.2 (upper text) (upper filename) = 0) →
      identify_document_type text filename = ("UNKNOWN").data) := by
  have heq : ∀ text filename : Str,
      identify_document_type text filename = specClassify text filename := by
    intro t f
    simp only [identify_document_type, specClassify]
    cases hsc : document_types.map (fun r => (r.1, typeScore r.2 (upper t) (upper f))) with
    | nil => exact absurd (List.map_eq_nil_iff.mp hsc) (by decide)
    | cons s0 rest =>
        rw [pyMax_eq_find s0 rest]
        cases hfind : (s0 :: rest).find? (fun p => p.2 == maxSnd (s0 :: rest)) with
        | none => by_cases hm : maxSnd (s0 :: rest) = 0 <;> simp [hm]
        | some best =>
            have hbest : best.2 = maxSnd (s0 :: rest) := by
              simpa using List.find?_some hfind
            by_cases hm : maxSnd (s0 :: rest) = 0
            · have hnp : ¬ best.2 > 0 := by simp [hbest, hm]
              simp [hm, hnp]
            · have hp : best.2 > 0 := by rw [hbest]; exact Nat.pos_of_ne_zero hm
              simp [hm, hp]
  refine ⟨heq, ?_⟩
  intro t f h0
  rw [heq t f]
  have hm : maxSnd (document_types.map (fun r => (r.1, typeScore r.2 (upper t) (upper f)))) = 0 := by
    refine maxSnd_eq_zero _ ?_
    intro p hp
    obtain ⟨r, hr, hpr⟩ := List.mem_map.mp hp
    rw [← hpr]
    exact h0 r hr
  simp [specClassify, hm]

/-- **C2 witness.** -/
theorem c2_witness :
    identify_document_type (("hello world").data) (("a.bin").data) = ("UNKNOWN").data :=
  c2_classifier_refines_spec.2 (("hello world").data) (("a.bin").data) (by decide)

def envC1 : Env :=
  { file_exists := true, is_file := true, name := ("a.txt").data,
    path := ("a.txt").data, suffix := (".txt").data, pdf_text := [],
    docx_lib := Except.ok [], excel_lib := Except.ok [],
    txt_read := Except.ok (("hello").data) }

def recC1 : ParsedRecord :=
  { filename := ("a.txt").data, file_path := ("a.txt").data,
    document_type := ("UNKNOWN").data, text_content := ("hello").data,
    word_count := 1, char_count := 5 }

/-- **C1 witness.** -/
theorem c1_witness : recC1.document_type ∈ closedTypes :=
  c1_closed_type_set.2 envC1 recC1 (by decide)

/-- **C3.** `parse_document` reports missing files and unsupported
extensions as error values: a non-existing path gives the `File not found`
record, an existing file with an extension outside
`.pdf/.docx/.xlsx/.xls/.txt` gives the unsupported-file-type record (the
embedding is total, so no exception can escape). -/
theorem c3_error_records (env : Env) :
    (env.file_exists = false →
      parse_document env = ParseResult.fail (("File not found").data)) ∧
    (env.file_exists = true →
      lowerStr env.suffix ∉
        [(".pdf").data, (".docx").data, (".xlsx").data, (".xls").data, (".txt").data] →
      parse_document env
        = ParseResult.fail ((("Unsupported file type: ").data) ++ lowerStr env.suffix)) := by
  constructor
  · intro h
    simp [parse_document, h]
  · intro hex hns
    simp only [List.mem_cons, List.not_mem_nil, or_false, not_or] at hns
    obtain ⟨h1, h2, h3, h4, h5⟩ := hns
    simp [parse_document, hex, h1, h2, h3, h4, h5]

/-- **C3 witness.** -/
theorem c3_witness :
    parse_document
        { file_exists := false, is_file := true, name := ("a.bin").data,
          path := ("a.bin").data, suffix := (".bin").data, pdf_text := [],
          docx_lib := Except.ok [], excel_lib := Except.ok [], txt_read := Except.ok [] }
      = ParseResult.fail (("File not found").data) :=
  (c3_error_records _).1 rfl

/-- The C7 counterexample text: it contains `RFI-102`, but also enough
contract vocabulary that `CONTRACT` outscores `RFI` (15 against 6). -/
def textC7 : Str := ("RFI-102 CONTRACT AGREEMENT GENERAL CONDITIONS").data

/-- **C7 counterexample.** A text containing `RFI-102` with filename
`RFI-102.pdf` on which `identify_document_type` does *not* return `RFI`:
the claim's universally quantified reading is false on the code. -/
theorem c7_counterexample :
    infixOf (("RFI-102").data) textC7 = true ∧
    identify_document_type textC7 (("RFI-102.pdf").data) = ("CONTRACT").data ∧
    ¬ identify_document_type textC7 (("RFI-102.pdf").data) = ("RFI").data :=
  ⟨by decide, by decide, by decide⟩

/-- **C7 amended.** For the text `RFI-102` itself (the spec's example
input) and filename `RFI-102.pdf`, the classifier returns `RFI`: RFI
scores 6 (+2 keyword in text, +3 pattern, +1 keyword in filename), which
beats every competing type. -/
theorem c7_amended :
    identify_document_type (("RFI-102").data) (("RFI-102.pdf").data) = ("RFI").data := by
  decide

/-- The C10 counterexample environment: an existing `.docx` whose
python-docx parse raises. -/
def envC10 : Env :=
  { file_exists := true, is_file := true,
    name := ("contract.docx").data, path := ("contract.docx").data,
    suffix := (".docx").data, pdf_text := [],
    docx_lib := Except.error (("boom").data),
    excel_lib := Except.ok [], txt_read := Except.ok [] }

/-- **C10 counterexample.** A `.docx` whose library parse raises produces
an error-free record, but its `document_type` is *not* necessarily the
unknown type: the classifier still sees the filename, and
`contract.docx` yields `CONTRACT`. -/
theorem c10_counterexample :
    resultError (parse_document envC10) = none ∧
    resultDocType (parse_document envC10) = some (("CONTRACT").data) ∧
    ¬ resultDocType (parse_document envC10) = some (("UNKNOWN").data) :=
  ⟨by decide, by decide, by decide⟩

/-- **C10 amended.** For an existing `.docx`/`.xlsx`/`.xls` file whose
library-level parsing raises, `parse_document` swallows the failure and
returns a normal record with no error field, empty `text_content`, zero
word and char counts, and `document_type` equal to the classifier applied
to empty text and the filename (so `UNKNOWN` exactly when no rule keyword
occurs in the filename). -/
theorem c10_amended (env : Env) (m : Str) (hx : env.file_exists = true)
    (h : (lowerStr env.suffix = (".docx").data ∧ env.docx_lib = Except.error m) ∨
         ((lowerStr env.suffix = (".xlsx").data ∨ lowerStr env.suffix = (".xls").data) ∧
          env.excel_lib = Except.error m)) :
    parse_document env = ParseResult.ok
      { filename := env.name, file_path := env.path,
        document_type := identify_document_type [] env.name,
        text_content := [], word_count := 0, char_count := 0 } := by
  rcases h with ⟨hs, hl⟩ | ⟨hs, hl⟩
  · have hne : ((".docx").data : Str) ≠ (".pdf").data := by decide
    simp [parse_document, hx, hs, hne, extract_text_from_docx, hl, splitWs, splitWsGo]
  · rcases hs with hs | hs
    · have h1 : ((".xlsx").data : Str) ≠ (".pdf").data := by decide
      have h2 : ((".xlsx").data : Str) ≠ (".docx").data := by decide
      simp [parse_document, hx, hs, h1, h2, extract_text_from_excel, hl, splitWs, splitWsGo]
    · have h1 : ((".xls").data : Str) ≠ (".pdf").data := by decide
      have h2 : ((".xls").data : Str) ≠ (".docx").data := by decide
      simp [parse_document, hx, hs, h1, h2, extract_text_from_excel, hl, splitWs, splitWsGo]

/-- **C10 witness.** -/
theorem c10_witness :
    parse_document envC10 = ParseResult.ok
      { filename := ("contract.docx").data, file_path := ("contract.docx").data,
        document_type := identify_document_type [] (("contract.docx").data),
        text_content := [], word_count := 0, char_count := 0 } :=
  c10_amended envC10 (("boom").data) rfl (Or.inl ⟨by decide, rfl⟩)

/-- The C4 failing input: a single PDF page whose native text is `Short
text` (10 characters, below the 50-character OCR threshold but nonempty). -/
def pagesC4 : List Str := [("Short text").data]

/-- **C4 (code bug evidence).** For a page with nonempty native text under
the 50-character threshold, OCR runs, yet its output is lost: the second
`text.replace` looks for a `--- Page 1 ---\n[Attempting OCR for additional
content...]\n` block, but the first pass interposed the page text between
the header and the placeholder, so the replacement never fires — the
placeholder survives and the OCR text (`OCRTEXT` here) never appears.  For
a page with *empty* native text the replacement does fire (last
conjunct), which is what the claim describes. -/
theorem c4_partial_page_ocr_lost :
    infixOf (("[Attempting OCR for additional content...]").data)
      (extract_text_from_pdf pagesC4 true (fun _ => true) (fun _ => ("OCRTEXT").data)) = true ∧
    infixOf (("OCRTEXT").data)
      (extract_text_from_pdf pagesC4 true (fun _ => true) (fun _ => ("OCRTEXT").data)) = false ∧
    infixOf (("(OCR)").data)
      (extract_text_from_pdf pagesC4 true (fun _ => true) (fun _ => ("OCRTEXT").data)) = false ∧
    infixOf (("--- Page 1 (OCR) ---\nOCRTEXT").data)
      (extract_text_from_pdf [[]] true (fun _ => true) (fun _ => ("OCRTEXT").data)) = true :=
  ⟨by decide, by decide, by decide, by decide⟩

/-! C5: directory batch processing. -/

def dirDocxBad : Env :=
  { file_exists := true, is_file := true, name := ("bad.docx").data,
    path := ("bad.docx").data, suffix := (".docx").data, pdf_text := [],
    docx_lib := Except.error (("corrupt").data), excel_lib := Except.ok [],
    txt_read := Except.ok [] }

def dirTxtA : Env :=
  { file_exists := true, is_file := true, name := ("a.txt").data,
    path := ("a.txt").data, suffix := (".txt").data, pdf_text := [],
    docx_lib := Except.ok [], excel_lib := Except.ok [],
    txt_read := Except.ok (("hello world").data) }

def dirTxtB : Env :=
  { file_exists := true, is_file := true, name := ("notes.txt").data,
    path := ("notes.txt").data, suffix := (".txt").data, pdf_text := [],
    docx_lib := Except.ok [], excel_lib := Except.ok [],
    txt_read := Except.ok (("foo bar").data) }

def dirTxtBad : Env :=
  { file_exists := true, is_file := true, name := ("c.txt").data,
    path := ("c.txt").data, suffix := (".txt").data, pdf_text := [],
    docx_lib := Except.ok [], excel_lib := Except.ok [],
    txt_read := Except.error (("bad utf-8").data) }

/-- **C5 counterexample.** A directory with one corrupt file and two valid
files does return three records, but when the corrupt file is a `.docx`
the docx extractor swallows the failure into an empty string: *zero*
records carry an error indicator (the claim demands exactly one), and only
the two `.txt` records have populated text. -/
theorem c5_counterexample :
    (parse_directory [dirDocxBad, dirTxtA, dirTxtB]).length = 3 ∧
    (parse_directory [dirDocxBad, dirTxtA, dirTxtB]).countP isErrorB = 0 ∧
    (parse_directory [dirDocxBad, dirTxtA, dirTxtB]).countP hasTextB = 2 :=
  ⟨by decide, by decide, by decide⟩

/-- **C5 amended.** A three-file directory with two valid files and one
unreadable file yields three records and never aborts; when the unreadable
file is a `.txt` whose read raises (the only per-file extraction failure
`parse_document` surfaces as an `error` record), exactly one record
carries an error indicator and the other two carry populated
`text_content`.  (For a corrupt `.docx`/`.xlsx` the failure is instead
swallowed into an error-free empty-text record, see the counterexample.) -/
theorem c5_amended (e1 e2 e3 : Env) (m : Str)
    (h1f : e1.is_file = true) (h1e : e1.file_exists = true)
    (h1s : lowerStr e1.suffix = (".txt").data) (h1r : e1.txt_read = Except.error m)
    (h2f : e2.is_file = true) (h2s : lowerStr e2.suffix ∈ supported_extensions)
    (h2ok : hasTextB (parse_document e2) = true)
    (h3f : e3.is_file = true) (h3s : lowerStr e3.suffix ∈ supported_extensions)
    (h3ok : hasTextB (parse_document e3) = true) :
    (parse_directory [e1, e2, e3]).length = 3 ∧
    (parse_directory [e1, e2, e3]).countP isErrorB = 1 ∧
    (parse_directory [e1, e2, e3]).countP hasTextB = 2 := by
  have hm1 : lowerStr e1.suffix ∈ supported_extensions := by rw [h1s]; decide
  have hp1 : parse_document e1
      = ParseResult.fail ((("Could not read text file: ").data) ++ m) := by
    have ha : ¬ ((".txt").data : Str) = (".pdf").data := by decide
    have hb : ¬ ((".txt").data : Str) = (".docx").data := by decide
    have hc : ¬ ((".txt").data : Str) = (".xlsx").data := by decide
    have hd : ¬ ((".txt").data : Str) = (".xls").data := by decide
    simp [parse_document, h1e, h1s, h1r, ha, hb, hc, hd]
  have hfilter : parse_directory [e1, e2, e3]
      = [parse_document e1, parse_document e2, parse_document e3] := by
    simp [parse_directory, h1f, h2f, h3f, hm1, h2s, h3s]
  have he2 : isErrorB (parse_document e2) = false := by
    cases hp : parse_document e2 with
    | fail msg => rw [hp] at h2ok; simp [hasTextB] at h2ok
    | ok r => simp [isErrorB]
  have he3 : isErrorB (parse_document e3) = false := by
    cases hp : parse_document e3 with
    | fail msg => rw [hp] at h3ok; simp [hasTextB] at h3ok
    | ok r => simp [isErrorB]
  have hx1 : ∀ msg : Str, isErrorB (ParseResult.fail msg) = true := fun _ => rfl
  have hx2 : ∀ msg : Str, hasTextB (ParseResult.fail msg) = false := fun _ => rfl
  rw [hfilter]
  refine ⟨rfl, ?_, ?_⟩
  · simp [List.countP_cons, List.countP_nil, hp1, hx1, he2, he3]
  · simp [List.countP_cons, List.countP_nil, hp1, hx2, h2ok, h3ok]

/-- **C5 witness.** -/
theorem c5_witness :
    (parse_directory [dirTxtBad, dirTxtA, dirTxtB]).length = 3 ∧
    (parse_directory [dirTxtBad, dirTxtA, dirTxtB]).countP isErrorB = 1 ∧
    (parse_directory [dirTxtBad, dirTxtA, dirTxtB]).countP hasTextB = 2 :=
  c5_amended dirTxtBad dirTxtA dirTxtB (("bad utf-8").data)
    rfl rfl (by decide) rfl rfl (by decide) (by decide) rfl (by decide) (by decide)

/-! C6: OCR pass deduplication. -/

/-- **C6 counterexample.** Two accepted passes with *identical* word sets
(indeed identical texts, `a a a a b`) are *both* retained: the similarity
denominator is the pass's token count with multiplicity (5), so the
set-intersection size (2) gives 2/5 = 40% ≤ 80% and the duplicate test
never fires — the merged output contains the text twice. -/
theorem c6_counterexample :
    countOccur (("a a a a b").data)
      (combineOcr [] [((("Uniform Block").data), (("a a a a b").data)),
                      ((("Sparse Text").data), (("a a a a b").data))]) = 2 ∧
    infixOf (("[Uniform Block]\na a a a b").data)
      (combineOcr [] [((("Uniform Block").data), (("a a a a b").data)),
                      ((("Sparse Text").data), (("a a a a b").data))]) = true ∧
    infixOf (("[Sparse Text]\na a a a b").data)
      (combineOcr [] [((("Uniform Block").data), (("a a a a b").data)),
                      ((("Sparse Text").data), (("a a a a b").data))]) = true :=
  ⟨by decide, by decide, by decide⟩

/-- **C6 amended.** A later pass is dropped exactly under the code's
similarity test: when the size of the intersection of the two passes' word
sets exceeds 80% of the *later* pass's whitespace-token count (with
multiplicity, `similarB`), only the first pass is retained in the merged
output.  Two passes with identical word sets collapse to one copy
precisely when this ratio condition holds — e.g. whenever the later pass
has no repeated token. -/
theorem c6_amended (title m1 t1 m2 t2 : Str)
    (h : similarB (lowerStr t2) (lowerStr t1) = true) :
    combineOcr title [(m1, t1), (m2, t2)] = combineOcr title [(m1, t1)] := by
  simp [combineOcr, dedupLoopGo, h]

/-- **C6 witness.** Two identical duplicate-free passes (`alpha beta`):
the similarity is 2/2 = 100% > 80%, so only one copy is retained. -/
theorem c6_witness :
    combineOcr [] [((("Uniform Block").data), (("alpha beta").data)),
                   ((("Sparse Text").data), (("alpha beta").data))]
      = combineOcr [] [((("Uniform Block").data), (("alpha beta").data))] :=
  c6_amended [] (("Uniform Block").data) (("alpha beta").data)
    (("Sparse Text").data) (("alpha beta").data) (by decide)

/-! C8: construction pattern summary block. -/

/-- The C8 failing input: ten distinct `[A-Z]-\d+` drawing numbers plus two
distinct `SHEET \d+` hits, all in the `drawing_numbers` category. -/
def text8 : Str := ("A-1 A-2 A-3 A-4 A-5 A-6 A-7 A-8 A-9 A-10 SHEET 11 SHEET 12").data

/-- The distinct matches the summary block lists for one category: each
`(category, pattern)` line contributes `set(matches[:10])`. -/
def listedFor (text cat : Str) : List Str :=
  match construction_keywords.find? (fun cp => cp.1 == cat) with
  | some cp =>
      cp.2.flatMap (fun pat =>
        let ms := findall true pat text
        if ms ≠ [] then dedupFirst (ms.take 10) else [])
  | none => []

/-- **C8 counterexample.** The 10-match cap is per `(category, pattern)`
line, not per category: on `text8` the block contains *two*
`DRAWING_NUMBERS:` lines whose listed matches are 12 distinct strings,
exceeding the claimed at-most-10 per category. -/
theorem c8_counterexample :
    countOccur (("DRAWING_NUMBERS").data) (extract_construction_patterns text8) = 2 ∧
    (dedupFirst (listedFor text8 (("drawing_numbers").data))).length = 12 :=
  ⟨by decide, by decide⟩

theorem dedupFirstGo_length_le (l : List Str) :
    ∀ seen, (dedupFirstGo seen l).length ≤ l.length := by
  induction l with
  | nil => intro seen; simp [dedupFirstGo]
  | cons x xs ih =>
      intro seen
      simp only [dedupFirstGo]
      by_cases h : seen.contains x
      · rw [if_pos h]
        exact Nat.le_trans (ih seen) (Nat.le_succ _)
      · rw [if_neg h]
        simp only [List.length_cons]
        exact Nat.succ_le_succ (ih (x :: seen))

/-- **C8 amended.** Every line of the `[CONSTRUCTION PATTERNS]` block
comes from one `(category, pattern)` pair with a nonempty `re.findall`
result, and lists at most 10 distinct matches for that pattern; a category
whose several patterns all match can therefore list more than 10 distinct
matches in total (see the counterexample). -/
theorem c8_amended (text line : Str) (hline : line ∈ patternsFound text) :
    ∃ cat pats pat, (cat, pats) ∈ construction_keywords ∧ pat ∈ pats ∧
      line = lineFor cat (findall true pat text) ∧
      (dedupFirst ((findall true pat text).take 10)).length ≤ 10 := by
  simp only [patternsFound, List.mem_flatMap] at hline
  obtain ⟨cp, hcp, hline2⟩ := hline
  simp only [List.mem_filterMap] at hline2
  obtain ⟨pat, hpat, hsome⟩ := hline2
  by_cases hne : findall true pat text ≠ []
  · rw [if_pos hne] at hsome
    refine ⟨cp.1, cp.2, pat, by simp only [Prod.mk.eta]; exact hcp, hpat,
      (Option.some.inj hsome).symm, ?_⟩
    refine Nat.le_trans (dedupFirstGo_length_le _ _) ?_
    rw [List.length_take]
    exact Nat.min_le_left 10 (findall true pat text).length
  · rw [if_neg hne] at hsome
    exact absurd hsome (by simp)

/-- **C8 witness.** -/
theorem c8_witness :
    ∃ cat pats pat, (cat, pats) ∈ construction_keywords ∧ pat ∈ pats ∧
      (("DRAWING_NUMBERS: A-1, A-2, A-3, A-4, A-5, A-6, A-7, A-8, A-9, A-10").data : Str)
        = lineFor cat (findall true pat text8) ∧
      (dedupFirst ((findall true pat text8).take 10)).length ≤ 10 :=
  c8_amended text8
    (("DRAWING_NUMBERS: A-1, A-2, A-3, A-4, A-5, A-6, A-7, A-8, A-9, A-10").data)
    (by decide)

/-! C9: the LLM classifier variant. -/

theorem iteMemValid (c : Prop) [Decidable c] {a b : Str}
    (ha : a ∈ valid_types) (hb : b ∈ valid_types) : (if c then a else b) ∈ valid_types := by
  by_cases hc : c
  · rwa [if_pos hc]
  · rwa [if_neg hc]

/-- **C9.** `detect_document_type` always returns a member of the closed
ten-element lowercase type set — the LLM response is validated against the
set, repaired by substring matching, or collapsed to `unknown` — and when
the filename checks are inconclusive, an LLM call that raises yields
`unknown` rather than propagating. -/
theorem c9_closed_llm_types (filename text_content : Str) (llm : Except Str Str) :
    detect_document_type filename text_content llm ∈ valid_types ∧
    (filenameInconclusive filename = true →
      ∀ e : Str, llm = Except.error e →
        detect_document_type filename text_content llm = ("unknown").data) := by
  have hval : ∀ d : Str,
      (if valid_types.contains d then d
       else
         match valid_types.find? (fun v => infixOf v d || infixOf d v) with
         | some v => v
         | none => ("unknown").data) ∈ valid_types := by
    intro d
    by_cases hc : valid_types.contains d
    · rw [if_pos hc]
      exact List.mem_of_elem_eq_true hc
    · rw [if_neg hc]
      cases hf : valid_types.find? (fun v => infixOf v d || infixOf d v) with
      | none => decide
      | some v => exact List.mem_of_find?_eq_some hf
  constructor
  · cases llm with
    | error e =>
        simp only [detect_document_type]
        refine iteMemValid _ (by decide) (iteMemValid _ (by decide) (iteMemValid _ (by decide)
          (iteMemValid _ (by decide) (iteMemValid _ (by decide) (iteMemValid _ (by decide)
          (iteMemValid _ (by decide) (iteMemValid _ (by decide) (iteMemValid _ (by decide)
          (iteMemValid _ (by decide) (by decide))))))))))
    | ok content =>
        simp only [detect_document_type]
        refine iteMemValid _ (by decide) (iteMemValid _ (by decide) (iteMemValid _ (by decide)
          (iteMemValid _ (by decide) (iteMemValid _ (by decide) (iteMemValid _ (by decide)
          (iteMemValid _ (by decide) (iteMemValid _ (by decide) (iteMemValid _ (by decide)
          (iteMemValid _ (by decide) (hval _))))))))))
  · intro hinc e hllm
    subst hllm
    simp only [filenameInconclusive, Bool.not_eq_true', Bool.or_eq_false_iff] at hinc
    obtain ⟨⟨⟨⟨⟨⟨⟨⟨⟨⟨⟨⟨⟨⟨⟨g1, g2⟩, g3⟩, g4⟩, g5⟩, g6⟩, g7⟩, g8⟩, g9⟩, g10⟩, g11⟩, g12⟩,
      g13⟩, g14⟩, g15⟩, g16⟩ := hinc
    simp only [detect_document_type]
    rw [if_neg (by simp [g1, g2]), if_neg (by simp [g3, g4]), if_neg (by simp [g5, g6]),
      if_neg (by simp [g7]), if_neg (by simp [g8, g9, g10]), if_neg (by simp [g11, g12]),
      if_neg (by simp [g13]), if_neg (by simp [g14]), if_neg (by simp [g15, g16])]
    split <;> rfl

/-- **C9 witness.** -/
theorem c9_witness :
    detect_document_type (("zzz.bin").data) (("hi").data)
        (Except.error (("boom").data)) = ("unknown").data :=
  (c9_closed_llm_types (("zzz.bin").data) (("hi").data)
      (Except.error (("boom").data))).2 (by decide) (("boom").data) rfl

end Constructr

